import Mathlib

/-!
Shallow embedding of the billing engine of the repository: charge accrual
(services/charge_calculator.py), invoice building and payment reconciliation
(services/invoice_generator.py), and the parts of the data model they read
(models/charge.py, models/customer.py, models/container.py, models/invoice.py,
config.py).

Conventions of the embedding:
- A calendar date is modeled by its proleptic Gregorian day number (an Int);
  PyDate is the civil (year, month, day) view with the standard conversions,
  used where the source formats a date (strftime) or adds timedelta days to a
  civil date. Milestone datetimes only ever reach the engine through .date(),
  so they are modeled by the day number of that date.
- Python float amounts are modeled as rationals; the source only adds,
  subtracts, multiplies and compares amounts.
- Nullable columns and optional arguments are Option. Python truthiness of
  numeric values (None and 0 are falsy) in expressions such as
  "customer.free_days or settings.default_free_days" is pyOrI / pyOrQ.
-/

/-- Python "a or b" on a nullable integer column: None and 0 are falsy. -/
def pyOrI (v : Option Int) (d : Int) : Int :=
  match v with
  | none => d
  | some n => if n = 0 then d else n

/-- Python "a or b" on a nullable float column: None and 0.0 are falsy. -/
def pyOrQ (v : Option ℚ) (d : ℚ) : ℚ :=
  match v with
  | none => d
  | some q => if q = 0 then d else q

/-- Civil date, as Python datetime.date (year, month, day). -/
structure PyDate where
  year : Int
  month : Int
  day : Int
deriving DecidableEq, Repr

/-- Day number of a civil date (days since 1970-01-01, proleptic Gregorian);
the standard days-from-civil algorithm. -/
def daysFromCivil (dt : PyDate) : Int :=
  let y : Int := if dt.month ≤ 2 then dt.year - 1 else dt.year
  let era : Int := Int.fdiv y 400
  let yoe : Int := y - era * 400
  let mp : Int := if dt.month > 2 then dt.month - 3 else dt.month + 9
  let doy : Int := Int.fdiv (153 * mp + 2) 5 + dt.day - 1
  let doe : Int := yoe * 365 + Int.fdiv yoe 4 - Int.fdiv yoe 100 + doy
  era * 146097 + doe - 719468

/-- Civil date of a day number; the standard civil-from-days algorithm. -/
def civilFromDays (z0 : Int) : PyDate :=
  let z : Int := z0 + 719468
  let era : Int := Int.fdiv z 146097
  let doe : Int := z - era * 146097
  let yoe : Int :=
    Int.fdiv (doe - Int.fdiv doe 1460 + Int.fdiv doe 36524 - Int.fdiv doe 146096) 365
  let y : Int := yoe + era * 400
  let doy : Int := doe - (365 * yoe + Int.fdiv yoe 4 - Int.fdiv yoe 100)
  let mp : Int := Int.fdiv (5 * doy + 2) 153
  let d : Int := doy - Int.fdiv (153 * mp + 2) 5 + 1
  let m : Int := if mp < 10 then mp + 3 else mp - 9
  { year := if m ≤ 2 then y + 1 else y, month := m, day := d }

/-- Python date + timedelta(days=n). -/
def pyAddDays (dt : PyDate) (n : Int) : PyDate :=
  civilFromDays (daysFromCivil dt + n)

/-- Python date comparison d1 < d2 (lexicographic on valid dates, equal to
day-number comparison). -/
def pyDateLt (d1 d2 : PyDate) : Prop :=
  daysFromCivil d1 < daysFromCivil d2

instance : Decidable (pyDateLt d1 d2) := by
  unfold pyDateLt; infer_instance

/-- Billing configuration defaults (config.py, Settings). -/
structure Settings where
  default_per_diem_rate : ℚ
  default_demurrage_rate : ℚ
  default_detention_rate : ℚ
  default_free_days : Int
deriving DecidableEq

/-- models/container.py: the milestone fields the calculators read.
Milestone datetimes are modeled by the day number of their .date();
cached accrual start dates are Date columns, also day numbers. -/
structure Container where
  vessel_discharged : Option Int
  available_for_pickup : Option Int
  picked_up : Option Int
  delivered : Option Int
  returned_empty : Option Int
  per_diem_starts : Option Int
  demurrage_starts : Option Int
deriving DecidableEq

/-- models/customer.py: rate-contract fields the engine reads. -/
structure Customer where
  per_diem_rate : Option ℚ
  demurrage_rate : Option ℚ
  detention_rate : Option ℚ
  free_days : Option Int
  per_diem_free_days : Option Int
  demurrage_free_days : Option Int
  payment_terms : String
  auto_invoice : Bool
deriving DecidableEq

/-- services/charge_calculator.py, calculate_per_diem (lines 64-124).
The as-of date defaults to today at the call boundary; here it is an
explicit parameter. -/
def calculate_per_diem (s : Settings) (container : Container) (customer : Customer)
    (as_of_date : Int) : Int × ℚ :=
  match container.picked_up with
  | none => (0, 0)
  | some picked =>
    let end_date : Int :=
      match container.returned_empty with
      | some r => r
      | none => as_of_date
    let per_diem_start : Int :=
      match container.per_diem_starts with
      | none =>
        let free_days :=
          pyOrI customer.per_diem_free_days (pyOrI customer.free_days s.default_free_days)
        picked + free_days
      | some p => p
    if end_date ≤ per_diem_start then (0, 0)
    else
      let days := end_date - per_diem_start
      let rate := pyOrQ customer.per_diem_rate s.default_per_diem_rate
      (days, (days : ℚ) * rate)

/-- services/charge_calculator.py, calculate_demurrage (lines 126-185). -/
def calculate_demurrage (s : Settings) (container : Container) (customer : Customer)
    (as_of_date : Int) : Int × ℚ :=
  match container.vessel_discharged with
  | none => (0, 0)
  | some discharged =>
    let end_date : Int :=
      match container.picked_up with
      | some p => p
      | none => as_of_date
    let demurrage_start : Int :=
      match container.demurrage_starts with
      | none =>
        let free_days := pyOrI customer.demurrage_free_days s.default_free_days
        discharged + free_days
      | some p => p
    if end_date ≤ demurrage_start then (0, 0)
    else
      let days := end_date - demurrage_start
      let rate := pyOrQ customer.demurrage_rate s.default_demurrage_rate
      (days, (days : ℚ) * rate)

/-- services/charge_calculator.py, calculate_detention (lines 187-243);
a fixed one free day after pickup. -/
def calculate_detention (s : Settings) (container : Container) (customer : Customer)
    (as_of_date : Int) : Int × ℚ :=
  match container.picked_up with
  | none => (0, 0)
  | some picked =>
    let end_date : Int :=
      match container.delivered with
      | some d => d
      | none => as_of_date
    let detention_start : Int := picked + 1
    if end_date ≤ detention_start then (0, 0)
    else
      let days := end_date - detention_start
      let rate := pyOrQ customer.detention_rate s.default_detention_rate
      (days, (days : ℚ) * rate)

/-- models/charge.py, class ChargeType (lines 10-13): the enum defines exactly
these two members. -/
inductive ChargeType
  | base_freight
  | per_diem
deriving DecidableEq

/-- Python attribute access ChargeType.NAME: a member that is not defined on
the enum raises AttributeError (modeled as the error case). -/
def chargeTypeAttr (name : String) : Except Unit ChargeType :=
  if name = "BASE_FREIGHT" then Except.ok ChargeType.base_freight
  else if name = "PER_DIEM" then Except.ok ChargeType.per_diem
  else Except.error ()

/-- models/charge.py, class Charge: the fields the engine writes or reads.
Fields the constructor in calculate_all_charges does not pass keep their
column defaults (is_disputed false, invoice_id none). -/
structure Charge where
  charge_type : ChargeType
  description : String
  rate : ℚ
  quantity : ℚ
  amount : ℚ
  start_date : Option Int
  end_date : Option Int
  is_billable : Bool
  billable_to_customer : Bool
  is_disputed : Bool
  ai_confidence_score : Option ℚ
deriving DecidableEq

/-- models/load.py: the fields the engine reads. customer_id is a
non-nullable foreign key, but the ORM relationship can still resolve to
no object, and the source guards for it, so it is an Option here. -/
structure Load where
  customer : Option Customer
  container : Option Container
  base_freight_rate : Option ℚ
  pickup_location : String
  delivery_location : String
deriving DecidableEq

/-- services/charge_calculator.py, body of calculate_all_charges
(lines 260-354) before its outermost exception handler: builds the charge
list, propagating the AttributeError that constructing a demurrage or
detention charge hits because ChargeType has no DEMURRAGE or DETENTION
member. When the load has no customer object every accrual calculator
returns (0, 0.0) through its own handler (the attribute accesses on None
raise inside it), so only the base-freight branch can emit. -/
def calcAllChargesBody (s : Settings) (load : Load) (as_of_date : Int) :
    Except Unit (List Charge) :=
  match load.container with
  | none => Except.ok []
  | some container =>
    let base : List Charge :=
      match load.base_freight_rate with
      | none => []
      | some r =>
        if r = 0 then []   -- Python: if load.base_freight_rate (0.0 falsy)
        else
          [{ charge_type := ChargeType.base_freight,
             description := "Base freight - " ++ load.pickup_location ++ " to " ++
               load.delivery_location,
             rate := r, quantity := 1, amount := r,
             start_date := none, end_date := none,
             is_billable := true, billable_to_customer := true,
             is_disputed := false, ai_confidence_score := some 1 }]
    match load.customer with
    | none => Except.ok base
    | some customer =>
      let pd := calculate_per_diem s container customer as_of_date
      let withPd : List Charge :=
        if pd.1 > 0 then
          base ++
          [{ charge_type := ChargeType.per_diem,
             description := "Per diem charges - " ++ toString pd.1 ++ " days",
             rate := pyOrQ customer.per_diem_rate s.default_per_diem_rate,
             quantity := (pd.1 : ℚ), amount := pd.2,
             start_date := container.per_diem_starts, end_date := some as_of_date,
             is_billable := true, billable_to_customer := true,
             is_disputed := false, ai_confidence_score := some 0.95 }]
        else base
      let dem := calculate_demurrage s container customer as_of_date
      let withDem : Except Unit (List Charge) :=
        if dem.1 > 0 then
          -- ChargeType.DEMURRAGE is not a member of the enum: AttributeError
          match chargeTypeAttr "DEMURRAGE" with
          | Except.error e => Except.error e
          | Except.ok ct =>
            Except.ok (withPd ++
              [{ charge_type := ct,
                 description := "Demurrage charges - " ++ toString dem.1 ++ " days",
                 rate := pyOrQ customer.demurrage_rate s.default_demurrage_rate,
                 quantity := (dem.1 : ℚ), amount := dem.2,
                 start_date := container.demurrage_starts, end_date := some as_of_date,
                 is_billable := true, billable_to_customer := true,
                 is_disputed := false, ai_confidence_score := some 0.95 }])
        else Except.ok withPd
      match withDem with
      | Except.error e => Except.error e
      | Except.ok acc =>
        let det := calculate_detention s container customer as_of_date
        if det.1 > 0 then
          -- ChargeType.DETENTION is not a member of the enum: AttributeError
          match chargeTypeAttr "DETENTION" with
          | Except.error e => Except.error e
          | Except.ok ct2 =>
            Except.ok (acc ++
              [{ charge_type := ct2,
                 description := "Detention charges - " ++ toString det.1 ++ " days",
                 rate := pyOrQ customer.detention_rate s.default_detention_rate,
                 quantity := (det.1 : ℚ), amount := det.2,
                 start_date := container.picked_up, end_date := some as_of_date,
                 is_billable := true, billable_to_customer := true,
                 is_disputed := false, ai_confidence_score := some 0.90 }])
        else Except.ok acc

/-- services/charge_calculator.py, calculate_all_charges (lines 245-358):
the outermost except handler turns any exception into an empty list. -/
def calculate_all_charges (s : Settings) (load : Load) (as_of_date : Int) :
    List Charge :=
  match calcAllChargesBody s load as_of_date with
  | Except.ok charges => charges
  | Except.error _ => []

/-- Decimal digit character. -/
def digitChar (d : Nat) : Char := Char.ofNat (48 + d)

/-- Decimal digit characters of a number, least significant first. -/
def natDigitsRev (n : Nat) : List Char :=
  if h : n < 10 then [digitChar n]
  else digitChar (n % 10) :: natDigitsRev (n / 10)
termination_by n
decreasing_by exact Nat.div_lt_self (by omega) (by omega)

/-- Plain decimal rendering of a number, as Python str/%d. -/
def natToStr (n : Nat) : String := String.mk (natDigitsRev n).reverse

/-- Python format "%05d" / f-string ":05d". For 0 <= n < 100000 this is
exactly the five zero-padded decimal digits; larger values print unpadded,
negative values print a sign followed by the digits padded to width four. -/
def pyFmt05 (n : Int) : String :=
  if 0 ≤ n then
    let m := n.toNat
    if m < 100000 then
      String.mk [digitChar (m / 10000), digitChar (m / 1000 % 10), digitChar (m / 100 % 10),
                 digitChar (m / 10 % 10), digitChar (m % 10)]
    else natToStr m
  else
    let m := (-n).toNat
    if m < 10000 then
      String.mk ['-', digitChar (m / 1000), digitChar (m / 100 % 10), digitChar (m / 10 % 10),
                 digitChar (m % 10)]
    else "-" ++ natToStr m

/-- Byte-order (codepoint) comparison of character lists; the order SQL
applies to the invoice_number column in ORDER BY ... DESC. -/
def listLtB : List Char → List Char → Bool
  | [], [] => false
  | [], _ :: _ => true
  | _ :: _, [] => false
  | a :: as, b :: bs =>
    if a.toNat < b.toNat then true
    else if b.toNat < a.toNat then false
    else listLtB as bs

/-- String comparison used by the invoice-number ORDER BY. -/
def strLtB (s t : String) : Bool := listLtB s.toList t.toList

/-- The first row of ORDER BY invoice_number DESC: the maximum in string
order, none on an empty result. -/
def lexMax : List String → Option String
  | [] => none
  | s :: rest =>
    match lexMax rest with
    | none => some s
    | some m => if strLtB s m then some m else some s

/-- Boolean list-prefix test. -/
def listIsPrefixB : List Char → List Char → Bool
  | [], _ => true
  | _ :: _, [] => false
  | a :: as, b :: bs => a = b && listIsPrefixB as bs

/-- SQL LIKE with a trailing percent wildcard: a prefix match. -/
def pyLikePrefix (p s : String) : Bool := listIsPrefixB p.toList s.toList

/-- Python substring test (needle in hay). -/
def listInfixB (needle : List Char) : List Char → Bool
  | [] => listIsPrefixB needle []
  | c :: cs => listIsPrefixB needle (c :: cs) || listInfixB needle cs

/-- Python substring test on strings. -/
def pyContains (needle hay : String) : Bool := listInfixB needle.toList hay.toList

/-- Python str.split on a literal dash separator: keeps empty segments. -/
def splitDash : List Char → List (List Char)
  | [] => [[]]
  | c :: cs =>
    if c = '-' then [] :: splitDash cs
    else
      match splitDash cs with
      | [] => [[c]]
      | seg :: rest => (c :: seg) :: rest

/-- invoice_number.split(dash)[negative one]: the segment after the last
dash (split always yields at least one segment). -/
def lastSeg (s : String) : String :=
  String.mk ((splitDash s.toList).getLastD [])

/-- Python str.split() with no argument: split on whitespace runs,
discarding empty tokens. The first argument accumulates the reversed
current token. -/
def splitWsAux : List Char → List Char → List (List Char)
  | [], acc => if acc.isEmpty then [] else [acc.reverse]
  | c :: cs, acc =>
    if c.isWhitespace then
      if acc.isEmpty then splitWsAux cs [] else acc.reverse :: splitWsAux cs []
    else splitWsAux cs (c :: acc)

/-- Python str.split() on a string. -/
def pySplitWs (s : String) : List String := (splitWsAux s.toList []).map String.mk

/-- Digit run of Python int(): after the first digit, single underscores may
separate digits; anything else fails. Accumulates the value. -/
def pyIntGo : Nat → List Char → Option Nat
  | acc, [] => some acc
  | acc, c :: cs =>
    if c = '_' then
      match cs with
      | [] => none
      | c2 :: cs2 =>
        if c2.isDigit then pyIntGo (acc * 10 + (c2.toNat - 48)) cs2 else none
    else if c.isDigit then pyIntGo (acc * 10 + (c.toNat - 48)) cs
    else none

/-- Nonempty digit run starting with a digit. -/
def pyIntDigits : List Char → Option Nat
  | [] => none
  | c :: cs => if c.isDigit then pyIntGo (c.toNat - 48) cs else none

/-- Python str.strip of surrounding whitespace, on the character list. -/
def pyStrip (s : String) : List Char :=
  ((s.toList.dropWhile Char.isWhitespace).reverse.dropWhile Char.isWhitespace).reverse

/-- Python int(str): surrounding whitespace, an optional sign, then decimal
digits (single underscores allowed between digits). A failure raises
ValueError, modeled as none. -/
def pyInt (s : String) : Option Int :=
  match pyStrip s with
  | [] => none
  | c :: rest =>
    if c = '+' then (pyIntDigits rest).map (fun n => (n : Int))
    else if c = '-' then (pyIntDigits rest).map (fun n => -(n : Int))
    else (pyIntDigits (c :: rest)).map (fun n => (n : Int))

/-- Python date.strftime of the year-month prefix: the four zero-padded
digits of the year then the two zero-padded digits of the month (years and
months of a valid Python date are within these widths; wider values fall
back to the unpadded digits). -/
def fmtYYYYMM (d : PyDate) : String :=
  let y := d.year.toNat
  let mo := d.month.toNat
  (if y < 10000 then
    String.mk [digitChar (y / 1000), digitChar (y / 100 % 10), digitChar (y / 10 % 10),
               digitChar (y % 10)]
   else natToStr y) ++
  (if mo < 100 then String.mk [digitChar (mo / 10), digitChar (mo % 10)] else natToStr mo)

/-- services/invoice_generator.py, _generate_invoice_number (lines 271-298).
The monthly allocation read (query, LIKE filter, ORDER BY DESC, first row)
is modeled by the list of existing invoice numbers. -/
def _generate_invoice_number (existing : List String) (invoice_date : PyDate) : String :=
  let pfx := "INV-" ++ fmtYYYYMM invoice_date
  let matching := existing.filter (fun s => pyLikePrefix (pfx ++ "-") s)
  match lexMax matching with
  | none => pfx ++ "-" ++ pyFmt05 1
  | some last =>
    match pyInt (lastSeg last) with
    | some n => pfx ++ "-" ++ pyFmt05 (n + 1)
    | none => pfx ++ "-" ++ pyFmt05 1        -- bare except: restart at 1

/-- services/invoice_generator.py, _calculate_due_date (lines 300-316). -/
def _calculate_due_date (payment_terms : String) (invoice_date : PyDate) : PyDate :=
  if pyContains "Due on Receipt" payment_terms then invoice_date
  else
    match (pySplitWs payment_terms).getLast? with
    | none => pyAddDays invoice_date 30            -- IndexError from [-1]
    | some tok =>
      match pyInt tok with
      | some d => pyAddDays invoice_date d
      | none => pyAddDays invoice_date 30          -- int() raised

/-- models/invoice.py, class InvoiceStatus. The partially-paid state is
named part_paid here (PARTIALLY_PAID in the source). -/
inductive InvoiceStatus
  | draft
  | pending_approval
  | approved
  | sent
  | part_paid
  | paid
  | overdue
  | disputed
  | cancelled
deriving DecidableEq

/-- models/invoice.py, class Invoice: the fields the engine reads or
writes. -/
structure Invoice where
  invoice_number : String
  quickbooks_invoice_id : Option String
  quickbooks_sync_token : Option String
  subtotal : ℚ
  tax_amount : ℚ
  total_amount : ℚ
  amount_paid : ℚ
  balance_due : ℚ
  invoice_date : PyDate
  due_date : Option PyDate
  sent_date : Option PyDate
  paid_date : Option PyDate
  status : InvoiceStatus
  payment_terms : String
  is_disputed : Bool
  dispute_amount : Option ℚ
  requires_human_review : Bool
deriving DecidableEq

/-- models/invoice.py, class InvoiceLineItem: the fields the builder sets. -/
structure InvoiceLineItem where
  item_number : Int
  description : String
  quantity : ℚ
  unit_price : ℚ
  amount : ℚ
deriving DecidableEq

/-- integrations/quickbooks_client.py, QBInvoice: the fields the
reconciler reads from the external balance report. -/
structure QBInvoice where
  total_amount : ℚ
  balance : ℚ
  sync_token : String
deriving DecidableEq

/-- services/invoice_generator.py, _handle_short_payment (lines 337-357).
amount_paid was set by the caller just before; the source's
(invoice.amount_paid or 0) equals it whether or not it is zero. -/
def _handle_short_payment (invoice : Invoice) (old_balance new_balance : ℚ) : Invoice :=
  let short_amount := old_balance - new_balance - invoice.amount_paid
  if short_amount > 10 then                        -- ignore small discrepancies
    { invoice with
        is_disputed := true
        dispute_amount := some short_amount
        status := InvoiceStatus.disputed }
  else invoice

/-- services/invoice_generator.py, check_payment_status (lines 223-269):
applies one external balance report to the invoice; the day the check runs
is the explicit today. Returns the updated invoice and the boolean the
source returns. -/
def check_payment_status (invoice : Invoice) (qb : Option QBInvoice) (today : PyDate) :
    Invoice × Bool :=
  match invoice.quickbooks_invoice_id with
  | none => (invoice, false)
  | some _ =>
    match qb with
    | none => (invoice, false)
    | some qb =>
      let old_balance := invoice.balance_due
      let inv1 := { invoice with
                      balance_due := qb.balance
                      amount_paid := qb.total_amount - qb.balance }
      let inv2 :=
        if qb.balance = 0 then
          { inv1 with
              status := InvoiceStatus.paid
              paid_date := some today }
        else if qb.balance < qb.total_amount then
          let inv3 := { inv1 with status := InvoiceStatus.part_paid }
          if qb.balance > 0 ∧ old_balance > qb.balance then
            _handle_short_payment inv3 old_balance qb.balance
          else inv3
        else
          match invoice.due_date with
          | some dd =>
            if pyDateLt dd today then { inv1 with status := InvoiceStatus.overdue } else inv1
          | none => inv1
      ({ inv2 with quickbooks_sync_token := some qb.sync_token }, true)

/-- services/invoice_generator.py, the loop of _requires_review: a charge
whose confidence is present and nonzero (Python truthiness) and below 0.80,
or a disputed charge, triggers review. -/
def reviewLoop : List Charge → Bool
  | [] => false
  | c :: rest =>
    (match c.ai_confidence_score with
     | none => false
     | some q => if q = 0 then false else decide (q < 0.80)) ||
    c.is_disputed || reviewLoop rest

/-- services/invoice_generator.py, _requires_review (lines 318-335). -/
def _requires_review (charges : List Charge) : Bool :=
  reviewLoop charges || decide ((charges.map Charge.amount).sum > 5000)

/-- Python enumerate(charges, 1). -/
def enumFrom (i : Int) : List Charge → List (Int × Charge)
  | [] => []
  | c :: cs => (i, c) :: enumFrom (i + 1) cs

/-- services/invoice_generator.py, create_invoice_from_load (lines 30-127):
the invoice and line items it builds and persists. The generated-number
read is the existing list; invoice_date is date.today(), the explicit
today. Persistence, commit and the auto-send branch are the external
boundary. Returns none when the load has no customer object. -/
def create_invoice_from_load (load : Load) (charges : List Charge)
    (existing : List String) (today : PyDate) :
    Option (Invoice × List InvoiceLineItem) :=
  match load.customer with
  | none => none
  | some customer =>
    let subtotal := ((charges.filter Charge.is_billable).map Charge.amount).sum
    let tax_amount : ℚ := 0
    let total_amount := subtotal + tax_amount
    let invoice_date := today
    let invoice_number := _generate_invoice_number existing invoice_date
    let due_date := _calculate_due_date customer.payment_terms invoice_date
    let invoice : Invoice :=
      { invoice_number := invoice_number,
        quickbooks_invoice_id := none,
        quickbooks_sync_token := none,
        subtotal := subtotal,
        tax_amount := tax_amount,
        total_amount := total_amount,
        amount_paid := 0,
        balance_due := total_amount,
        invoice_date := invoice_date,
        due_date := some due_date,
        sent_date := none,
        paid_date := none,
        status := InvoiceStatus.draft,
        payment_terms := customer.payment_terms,
        is_disputed := false,
        dispute_amount := none,
        requires_human_review := _requires_review charges }
    let line_items :=
      (enumFrom 1 charges).filterMap (fun ic =>
        if ic.2.is_billable then
          some { item_number := ic.1, description := ic.2.description,
                 quantity := ic.2.quantity, unit_price := ic.2.rate,
                 amount := ic.2.amount }
        else none)
    some (invoice, line_items)

/-! Claim-side definitions, restated from the specification's sentences,
to be compared with the source-translated definitions above; and the
concrete fixtures of the specification's scenarios. -/

/-- Claim-side restatement of the per-diem algorithm from the spec: zero
without a pickup; end date from returned_empty else the as-of date; charge
start from the cached per_diem_starts else pickup plus the resolved free
days; zero when the end date is not after the charge start, otherwise whole
calendar days times the resolved rate. -/
def perDiemClaim (s : Settings) (container : Container) (customer : Customer)
    (as_of_date : Int) : Int × ℚ :=
  match container.picked_up with
  | none => (0, 0)
  | some picked =>
    let end_date := container.returned_empty.getD as_of_date
    let charge_start := container.per_diem_starts.getD
      (picked + pyOrI customer.per_diem_free_days (pyOrI customer.free_days s.default_free_days))
    if end_date ≤ charge_start then (0, 0)
    else (end_date - charge_start,
      ((end_date - charge_start : Int) : ℚ) * pyOrQ customer.per_diem_rate s.default_per_diem_rate)

/-- Claim-side free-day resolution from spec 4.1: a present customer
allowance is used even when it is zero; a negative allowance is a hard
validation error. -/
def resolveFreeDaysClaim (v : Option Int) (d : Int) : Except Unit Int :=
  match v with
  | none => Except.ok d
  | some n => if n < 0 then Except.error () else Except.ok n

/-- calculate_demurrage with its free-day resolution replaced by the
claim-side resolution, for comparison with the source function. -/
def calculate_demurrage_claimres (s : Settings) (container : Container) (customer : Customer)
    (as_of_date : Int) : Except Unit (Int × ℚ) :=
  match container.vessel_discharged with
  | none => Except.ok (0, 0)
  | some discharged =>
    let end_date : Int :=
      match container.picked_up with
      | some p => p
      | none => as_of_date
    let start0 : Except Unit Int :=
      match container.demurrage_starts with
      | none =>
        match resolveFreeDaysClaim customer.demurrage_free_days s.default_free_days with
        | Except.error e => Except.error e
        | Except.ok free_days => Except.ok (discharged + free_days)
      | some p => Except.ok p
    match start0 with
    | Except.error e => Except.error e
    | Except.ok demurrage_start =>
      if end_date ≤ demurrage_start then Except.ok (0, 0)
      else
        let days := end_date - demurrage_start
        let rate := pyOrQ customer.demurrage_rate s.default_demurrage_rate
        Except.ok (days, (days : ℚ) * rate)

/-- Claim-side review predicate as the claim states it: some charge has a
confidence score below 0.80, or some charge is disputed, or the total
exceeds 5000. -/
def requiresReviewClaim (charges : List Charge) : Bool :=
  (charges.any (fun c =>
    match c.ai_confidence_score with
    | some q => decide (q < 0.80)
    | none => false)) ||
  charges.any Charge.is_disputed ||
  decide ((charges.map Charge.amount).sum > 5000)

/-- Amended claim-side review predicate: the confidence trigger requires a
present and nonzero confidence score below 0.80. -/
def requiresReviewAmended (charges : List Charge) : Bool :=
  (charges.any (fun c =>
    match c.ai_confidence_score with
    | some q => !decide (q = 0) && decide (q < 0.80)
    | none => false)) ||
  charges.any Charge.is_disputed ||
  decide ((charges.map Charge.amount).sum > 5000)

/-- Claim-side restatement of the due-date rule: the invoice date when the
terms contain Due on Receipt; else the invoice date plus the trailing
integer token of the terms; else the invoice date plus 30 days. -/
def dueDateClaim (payment_terms : String) (invoice_date : PyDate) : PyDate :=
  if pyContains "Due on Receipt" payment_terms then invoice_date
  else
    match ((pySplitWs payment_terms).getLast?).bind pyInt with
    | some d => pyAddDays invoice_date d
    | none => pyAddDays invoice_date 30

/-- Claim-side: the numerically highest parseable sequence among the
existing invoice numbers for a month prefix. -/
def maxSeqClaim (existing : List String) (pfx : String) : Option Int :=
  ((existing.filter (fun s => pyLikePrefix (pfx ++ "-") s)).filterMap
    (fun s => pyInt (lastSeg s))).foldr
    (fun n acc =>
      match acc with
      | none => some n
      | some m => some (max m n)) none

/-- The condition under which one reconciliation run reaches the
short-payment branch and flags a dispute: a positive reported balance that
is below the reported total and below the previously recorded balance, with
the recorded balance exceeding the reported total by more than the 10
dollar noise threshold. -/
def triggersDispute (invoice : Invoice) (qb : QBInvoice) : Prop :=
  0 < qb.balance ∧ qb.balance < qb.total_amount ∧ qb.balance < invoice.balance_due ∧
    10 < invoice.balance_due - qb.total_amount

/-- The generator's own number format for sequence n of the month of d. -/
def fmtInv (d : PyDate) (n : Nat) : String :=
  "INV-" ++ fmtYYYYMM d ++ "-" ++ pyFmt05 (n : Int)

/-- A clean generator state for the month of d: the numbers of the
sequences 1..k, in order. -/
def fmtList (d : PyDate) (k : Nat) : List String :=
  (List.range k).map (fun i => fmtInv d (i + 1))

/-- The config.py default rates and free days. -/
def settingsRef : Settings :=
  { default_per_diem_rate := 100, default_demurrage_rate := 150,
    default_detention_rate := 125, default_free_days := 3 }

/-- Scenario A customer: per-diem free days 3, per-diem rate 100. -/
def customerA : Customer :=
  { per_diem_rate := some 100, demurrage_rate := some 150, detention_rate := some 125,
    free_days := some 3, per_diem_free_days := some 3, demurrage_free_days := some 2,
    payment_terms := "Net 30", auto_invoice := true }

/-- Scenario A container: discharged and picked up day 0, returned empty
day 5, no cached accrual start dates. -/
def containerA : Container :=
  { vessel_discharged := some 0, available_for_pickup := none, picked_up := some 0,
    delivered := none, returned_empty := some 5, per_diem_starts := none,
    demurrage_starts := none }

/-- A customer whose demurrage free-day allowance is exactly zero. -/
def customerZeroFree : Customer :=
  { customerA with demurrage_free_days := some 0 }

/-- A customer whose demurrage free-day allowance is negative. -/
def customerNegFree : Customer :=
  { customerA with demurrage_free_days := some (-5) }

/-- A container discharged day 0 and not yet picked up. -/
def containerDem : Container :=
  { vessel_discharged := some 0, available_for_pickup := none, picked_up := none,
    delivered := none, returned_empty := none, per_diem_starts := none,
    demurrage_starts := none }

/-- A load whose container is accruing demurrage (3 days by day 5 under
customerA's 2 demurrage free days). -/
def loadDem : Load :=
  { customer := some customerA, container := some containerDem,
    base_freight_rate := some 500, pickup_location := "POLB",
    delivery_location := "Phoenix" }

/-- A billable charge whose confidence score is exactly 0.0. -/
def chargeZeroConf : Charge :=
  { charge_type := ChargeType.per_diem, description := "Per diem charges - 1 days",
    rate := 100, quantity := 1, amount := 100, start_date := none, end_date := none,
    is_billable := true, billable_to_customer := true, is_disputed := false,
    ai_confidence_score := some 0 }

/-- A sent invoice whose recorded balance (200) exceeds the external
report's total (100): the first reconciliation of qbReport flags a
short-payment dispute. -/
def invoiceSent : Invoice :=
  { invoice_number := "INV-202401-00001", quickbooks_invoice_id := some "QB1",
    quickbooks_sync_token := none, subtotal := 200, tax_amount := 0,
    total_amount := 200, amount_paid := 0, balance_due := 200,
    invoice_date := ⟨2024, 1, 10⟩, due_date := none, sent_date := none,
    paid_date := none, status := InvoiceStatus.sent, payment_terms := "Net 30",
    is_disputed := false, dispute_amount := none, requires_human_review := false }

/-- An external balance report: total 100, open balance 50. -/
def qbReport : QBInvoice := { total_amount := 100, balance := 50, sync_token := "tok1" }

/-- A partially paid invoice whose due date (2024-01-01) has passed. -/
def invoicePartPaid : Invoice :=
  { invoice_number := "INV-202401-00002", quickbooks_invoice_id := some "QB2",
    quickbooks_sync_token := none, subtotal := 100, tax_amount := 0,
    total_amount := 100, amount_paid := 50, balance_due := 50,
    invoice_date := ⟨2023, 12, 2⟩, due_date := some ⟨2024, 1, 1⟩, sent_date := none,
    paid_date := none, status := InvoiceStatus.part_paid, payment_terms := "Net 30",
    is_disputed := false, dispute_amount := none, requires_human_review := false }

/-- A sent, unpaid invoice whose due date (2024-01-01) has passed. -/
def invoiceSentDue : Invoice :=
  { invoice_number := "INV-202401-00003", quickbooks_invoice_id := some "QB3",
    quickbooks_sync_token := none, subtotal := 100, tax_amount := 0,
    total_amount := 100, amount_paid := 0, balance_due := 100,
    invoice_date := ⟨2023, 12, 2⟩, due_date := some ⟨2024, 1, 1⟩, sent_date := none,
    paid_date := none, status := InvoiceStatus.sent, payment_terms := "Net 30",
    is_disputed := false, dispute_amount := none, requires_human_review := false }

/-- An external report of a fully unpaid invoice: total 100, balance 100. -/
def qbReportUnpaid : QBInvoice :=
  { total_amount := 100, balance := 100, sync_token := "tok2" }

/-- A billable base-freight charge of 500 with full confidence. -/
def chargeBase : Charge :=
  { charge_type := ChargeType.base_freight, description := "Base freight - POLB to Phoenix",
    rate := 500, quantity := 1, amount := 500, start_date := none, end_date := none,
    is_billable := true, billable_to_customer := true, is_disputed := false,
    ai_confidence_score := some 1 }

/-- A non-billable charge, skipped by the invoice builder's line items. -/
def chargeNonBillable : Charge :=
  { charge_type := ChargeType.per_diem, description := "Per diem charges - 2 days",
    rate := 100, quantity := 2, amount := 200, start_date := none, end_date := none,
    is_billable := false, billable_to_customer := false, is_disputed := false,
    ai_confidence_score := some 0.95 }

/-- A container picked up day 0, neither delivered nor returned. -/
def containerDet : Container :=
  { vessel_discharged := none, available_for_pickup := none, picked_up := some 0,
    delivered := none, returned_empty := none, per_diem_starts := none,
    demurrage_starts := none }

/-- A load whose container is accruing detention (4 days by day 5 under the
fixed one-day allowance). -/
def loadDet : Load :=
  { customer := some customerA, container := some containerDet,
    base_freight_rate := some 500, pickup_location := "POLB",
    delivery_location := "Phoenix" }

/-- A load with a customer and no container. -/
def loadNoContainer : Load :=
  { customer := some customerA, container := none, base_freight_rate := none,
    pickup_location := "POLB", delivery_location := "Phoenix" }

/-! Helper lemmas. -/

/-- The confidence-or-disputed loop of _requires_review, flattened to two
List.any scans. -/
theorem reviewLoop_split (l : List Charge) :
    reviewLoop l =
      ((l.any fun c =>
        match c.ai_confidence_score with
        | some q => !decide (q = 0) && decide (q < 0.80)
        | none => false) ||
       l.any Charge.is_disputed) := by
  induction l with
  | nil => rfl
  | cons c rest ih =>
    simp only [reviewLoop, List.any_cons, ih]
    cases h : c.ai_confidence_score with
    | none =>
      cases hd : c.is_disputed <;>
        cases h1 : (rest.any fun c =>
          match c.ai_confidence_score with
          | some q => !decide (q = 0) && decide (q < 0.80)
          | none => false) <;>
        cases h2 : rest.any Charge.is_disputed <;> simp
    | some q =>
      by_cases hq : q = 0 <;>
        cases hd : c.is_disputed <;>
        cases h1 : (rest.any fun c =>
          match c.ai_confidence_score with
          | some q => !decide (q = 0) && decide (q < 0.80)
          | none => false) <;>
        cases h2 : rest.any Charge.is_disputed <;> simp [hq]

/-- The line items built from the enumerated charges carry exactly the
billable charges' amounts. -/
theorem enum_lineitems_amounts (i : Int) (charges : List Charge) :
    (((enumFrom i charges).filterMap (fun ic =>
        if ic.2.is_billable then
          some ({ item_number := ic.1, description := ic.2.description,
                  quantity := ic.2.quantity, unit_price := ic.2.rate,
                  amount := ic.2.amount } : InvoiceLineItem)
        else none)).map InvoiceLineItem.amount) =
      (charges.filter Charge.is_billable).map Charge.amount := by
  induction charges generalizing i with
  | nil => rfl
  | cons c cs ih =>
    by_cases hb : c.is_billable <;>
      simp [enumFrom, List.filterMap_cons, List.filter_cons, hb, ih]

/-! Claim theorems. -/

/-- Claim C1: for every container and customer, calculate_per_diem returns
(0, 0.0) without a picked_up timestamp; otherwise, with end date from
returned_empty else the as-of date and charge start from the cached
per_diem_starts else pickup plus the resolved free days, it returns (0, 0.0)
when the end date is not after the charge start and otherwise whole calendar
days times the resolved rate; Scenario A yields 2 days and 200 dollars. -/
theorem c1_per_diem_follows_spec :
    (∀ (s : Settings) (cont : Container) (cust : Customer) (a : Int),
      calculate_per_diem s cont cust a = perDiemClaim s cont cust a) ∧
    (∀ a : Int, calculate_per_diem settingsRef containerA customerA a = (2, 200)) := by
  constructor
  · intro s cont cust a
    unfold calculate_per_diem perDiemClaim
    cases cont.picked_up <;> cases cont.returned_empty <;> cases cont.per_diem_starts <;>
      simp
  · intro a
    norm_num [calculate_per_diem, pyOrI, pyOrQ, containerA, customerA, settingsRef]

/-- Claim C10: each accrual calculator is a total function of its embedded
inputs and the day count it returns is never negative. -/
theorem c10_days_never_negative :
    ∀ (s : Settings) (cont : Container) (cust : Customer) (a : Int),
      0 ≤ (calculate_per_diem s cont cust a).1 ∧
      0 ≤ (calculate_demurrage s cont cust a).1 ∧
      0 ≤ (calculate_detention s cont cust a).1 := by
  intro s cont cust a
  refine ⟨?_, ?_, ?_⟩
  · unfold calculate_per_diem
    cases cont.picked_up <;> cases cont.returned_empty <;> cases cont.per_diem_starts <;>
      (try simp) <;> (split <;> simp <;> omega)
  · unfold calculate_demurrage
    cases cont.vessel_discharged <;> cases cont.picked_up <;> cases cont.demurrage_starts <;>
      (try simp) <;> (split <;> simp <;> omega)
  · unfold calculate_detention
    cases cont.picked_up <;> cases cont.delivered <;>
      (try simp) <;> (split <;> simp <;> omega)

/-- Claim C7 counterexample: a zero demurrage free-day allowance is not
honored (the source falls back to the default 3 and computes no charge
where the claim computes 2 days at 150), and a negative allowance is not
rejected (the source uses it, computing 7 days, where the claim demands a
validation error). -/
theorem c7_free_day_resolution_cex :
    calculate_demurrage settingsRef containerDem customerZeroFree 2 = (0, 0) ∧
    calculate_demurrage_claimres settingsRef containerDem customerZeroFree 2 =
      Except.ok (2, 300) ∧
    calculate_demurrage settingsRef containerDem customerNegFree 2 = (7, 1050) ∧
    calculate_demurrage_claimres settingsRef containerDem customerNegFree 2 =
      Except.error () := by
  refine ⟨?_, ?_, ?_, ?_⟩ <;>
    norm_num [calculate_demurrage, calculate_demurrage_claimres, resolveFreeDaysClaim,
      pyOrI, pyOrQ, settingsRef, containerDem, customerZeroFree, customerNegFree, customerA]

/-- Claim C7 as amended: the resolution treats a present zero allowance as
absent (it falls back to the default); a present nonzero allowance is used
as is, including a negative one, which shifts the charge start before the
milestone instead of being rejected. -/
theorem c7_free_day_resolution_amended :
    (∀ d : Int, pyOrI (some 0) d = d) ∧
    (∀ n d : Int, n ≠ 0 → pyOrI (some n) d = n) ∧
    (∀ (s : Settings) (cont : Container) (cust : Customer) (a n t : Int),
      cust.demurrage_free_days = some n → n ≠ 0 → cont.demurrage_starts = none →
      cont.vessel_discharged = some t → cont.picked_up = none → t + n < a →
      (calculate_demurrage s cont cust a).1 = a - (t + n)) := by
  refine ⟨fun d => rfl, fun n d hn => by simp [pyOrI, hn], ?_⟩
  intro s cont cust a n t hfree hn hstarts hdis hpick hlt
  unfold calculate_demurrage
  rw [hdis, hstarts, hpick, hfree]
  have hfd : pyOrI (some n) s.default_free_days = n := by simp [pyOrI, hn]
  rw [hfd]
  dsimp only
  rw [if_neg (by omega)]

/-- Claim C7 amended witness: the negative allowance -5 is used directly,
yielding 7 chargeable days by day 2 for a container discharged day 0. -/
theorem c7_free_day_resolution_amended_witness :
    pyOrI (some (-5)) 3 = -5 ∧
    (calculate_demurrage settingsRef containerDem customerNegFree 2).1 = 2 - (0 + (-5)) :=
  ⟨c7_free_day_resolution_amended.2.1 (-5) 3 (by decide),
   c7_free_day_resolution_amended.2.2 settingsRef containerDem customerNegFree 2 (-5) 0
     rfl (by decide) rfl rfl rfl (by decide)⟩

/-- Claim C2, the failing inputs: a load whose container has accrued 3
demurrage days by day 5, and one that has accrued 4 detention days;
constructing the demurrage (or detention) charge evaluates
ChargeType.DEMURRAGE (or .DETENTION), which the enum does not define, and
the exception handler of calculate_all_charges returns the empty list, so
no charge of any category (not even the base-freight one) is emitted,
against the specified demurrage charge with confidence 0.95 and detention
charge with confidence 0.90. -/
theorem c2_demurrage_charge_dropped :
    (calculate_demurrage settingsRef containerDem customerA 5).1 = 3 ∧
    calculate_all_charges settingsRef loadDem 5 = [] ∧
    (calculate_detention settingsRef containerDet customerA 5).1 = 4 ∧
    calculate_all_charges settingsRef loadDet 5 = [] := by
  refine ⟨?_, by decide, ?_, by decide⟩
  · norm_num [calculate_demurrage, pyOrI, settingsRef, containerDem, customerA]
  · norm_num [calculate_detention, settingsRef, containerDet, customerA]

/-- Claim C6 counterexample: a single billable, undisputed charge of amount
100 with confidence exactly 0.0 does not set requires_human_review (0.0 is
falsy in the source's test), although its confidence is below 0.80 as the
claim demands. -/
theorem c6_review_zero_confidence_cex :
    _requires_review [chargeZeroConf] = false ∧
    requiresReviewClaim [chargeZeroConf] = true := by
  constructor
  · norm_num [_requires_review, reviewLoop, chargeZeroConf]
  · norm_num [requiresReviewClaim, chargeZeroConf]

/-- Claim C6 as amended: requires_human_review is set iff some charge has a
present and nonzero confidence score below 0.80, or some charge is
disputed, or the charges' total exceeds the 5000 threshold. -/
theorem c6_review_flag_amended :
    ∀ charges : List Charge, _requires_review charges = requiresReviewAmended charges := by
  intro charges
  unfold _requires_review requiresReviewAmended
  rw [reviewLoop_split]

/-- Claim C9: the due date equals the invoice date when the terms contain
Due on Receipt, else the invoice date plus the trailing integer token of
the terms parsed as a day count, else plus 30 days when unparsable; Net 45
from 2024-01-10 gives 2024-02-24. -/
theorem c9_due_date_follows_spec :
    (∀ (terms : String) (d : PyDate), _calculate_due_date terms d = dueDateClaim terms d) ∧
    _calculate_due_date "Net 45" ⟨2024, 1, 10⟩ = ⟨2024, 2, 24⟩ := by
  constructor
  · intro terms d
    unfold _calculate_due_date dueDateClaim
    by_cases hc : pyContains "Due on Receipt" terms = true
    · simp [hc]
    · simp only [Bool.not_eq_true] at hc
      simp only [hc, Bool.false_eq_true, if_false]
      cases h : (pySplitWs terms).getLast? with
      | none => simp
      | some tok => cases hi : pyInt tok <;> simp [hi]
  · decide

/-- Claim C8: the invoice built from a load and its charges has subtotal
the sum of the billable charges' amounts, zero tax, total = subtotal + tax,
balance_due = total, and one line item per billable charge whose amounts
sum to the subtotal. -/
theorem c8_invoice_totals :
    ∀ (load : Load) (charges : List Charge) (existing : List String) (today : PyDate)
      (cust : Customer), load.customer = some cust →
      ∃ inv items, create_invoice_from_load load charges existing today = some (inv, items) ∧
        inv.subtotal = ((charges.filter Charge.is_billable).map Charge.amount).sum ∧
        inv.tax_amount = 0 ∧
        inv.total_amount = inv.subtotal + inv.tax_amount ∧
        inv.balance_due = inv.total_amount ∧
        (items.map InvoiceLineItem.amount).sum = inv.subtotal ∧
        items.length = (charges.filter Charge.is_billable).length := by
  intro load charges existing today cust hcust
  unfold create_invoice_from_load
  rw [hcust]
  refine ⟨_, _, rfl, rfl, rfl, rfl, rfl, ?_, ?_⟩
  · rw [enum_lineitems_amounts]
  · have h := congrArg List.length (enum_lineitems_amounts 1 charges)
    simpa using h

/-- Claim C8 witness: a load with a customer, one billable 500 charge and
one non-billable charge. -/
theorem c8_invoice_totals_witness :
    ∃ inv items,
      create_invoice_from_load loadNoContainer [chargeBase, chargeNonBillable] []
        ⟨2024, 1, 15⟩ = some (inv, items) ∧
      inv.subtotal =
        ((([chargeBase, chargeNonBillable]).filter Charge.is_billable).map Charge.amount).sum ∧
      inv.tax_amount = 0 ∧
      inv.total_amount = inv.subtotal + inv.tax_amount ∧
      inv.balance_due = inv.total_amount ∧
      (items.map InvoiceLineItem.amount).sum = inv.subtotal ∧
      items.length = (([chargeBase, chargeNonBillable]).filter Charge.is_billable).length :=
  c8_invoice_totals loadNoContainer [chargeBase, chargeNonBillable] [] ⟨2024, 1, 15⟩
    customerA rfl

/-- Helper: a reconciliation run that does not flag a short-payment dispute
is absorbed by a second run of the same report on the same day. -/
theorem check_payment_status_absorbed (inv : Invoice) (qb : QBInvoice) (today : PyDate)
    (h : ¬ triggersDispute inv qb) :
    check_payment_status (check_payment_status inv (some qb) today).1 (some qb) today =
      check_payment_status inv (some qb) today := by
  cases hqid : inv.quickbooks_invoice_id with
  | none => simp [check_payment_status, hqid]
  | some qid =>
    unfold check_payment_status _handle_short_payment
    by_cases hb0 : qb.balance = 0
    · simp [hqid, hb0]
    · by_cases hlt : qb.balance < qb.total_amount
      · by_cases hg : qb.balance > 0 ∧ inv.balance_due > qb.balance
        · have hsh : ¬ (10 : ℚ) < inv.balance_due - qb.total_amount := by
            unfold triggersDispute at h
            push_neg at h
            exact not_lt.mpr (h hg.1 hlt hg.2)
          simp [hqid, hb0, hlt, hg, hsh, lt_irrefl]
        · simp [hqid, hb0, hlt, hg, lt_irrefl]
      · cases hdd : inv.due_date with
        | none => simp [hqid, hb0, hlt, hdd]
        | some dd =>
          by_cases hpast : pyDateLt dd today
          · simp [hqid, hb0, hlt, hdd, hpast]
          · simp [hqid, hb0, hlt, hdd, hpast]

/-- Claim C3 counterexample: reconciling the balance report (total 100,
balance 50) against invoiceSent (recorded balance 200) once flags a dispute
and sets status disputed; a second run of the same report resets the status
to partially paid, so the state after two runs differs from the state after
one. -/
theorem c3_reconcile_not_idempotent :
    (check_payment_status invoiceSent (some qbReport) ⟨2024, 3, 1⟩).1.status =
      InvoiceStatus.disputed ∧
    (check_payment_status (check_payment_status invoiceSent (some qbReport) ⟨2024, 3, 1⟩).1
        (some qbReport) ⟨2024, 3, 1⟩).1.status = InvoiceStatus.part_paid ∧
    (check_payment_status (check_payment_status invoiceSent (some qbReport) ⟨2024, 3, 1⟩).1
        (some qbReport) ⟨2024, 3, 1⟩).1 ≠
      (check_payment_status invoiceSent (some qbReport) ⟨2024, 3, 1⟩).1 := by
  have h1 : (check_payment_status invoiceSent (some qbReport) ⟨2024, 3, 1⟩).1 =
      { invoiceSent with
          balance_due := 50
          amount_paid := 50
          status := InvoiceStatus.disputed
          is_disputed := true
          dispute_amount := some 100
          quickbooks_sync_token := some "tok1" } := by
    norm_num [check_payment_status, _handle_short_payment, invoiceSent, qbReport]
  have h2 : (check_payment_status (check_payment_status invoiceSent (some qbReport)
        ⟨2024, 3, 1⟩).1 (some qbReport) ⟨2024, 3, 1⟩).1 =
      { invoiceSent with
          balance_due := 50
          amount_paid := 50
          status := InvoiceStatus.part_paid
          is_disputed := true
          dispute_amount := some 100
          quickbooks_sync_token := some "tok1" } := by
    rw [h1]
    norm_num [check_payment_status, _handle_short_payment, invoiceSent, qbReport]
  refine ⟨by rw [h1], by rw [h2], fun habs => ?_⟩
  have hs := congrArg Invoice.status habs
  rw [h2] at hs
  rw [h1] at hs
  simp [invoiceSent] at hs

/-- Helper: when the first run does flag a dispute, the second run of the
same report equals the first run's state with only the status reset to
partially paid. -/
theorem check_payment_status_dispute_reset (inv : Invoice) (qb : QBInvoice) (today : PyDate)
    (qid : String) (hqid : inv.quickbooks_invoice_id = some qid)
    (htr : triggersDispute inv qb) :
    (check_payment_status (check_payment_status inv (some qb) today).1 (some qb) today).1 =
      { (check_payment_status inv (some qb) today).1 with
          status := InvoiceStatus.part_paid } := by
  obtain ⟨h1, h2, h3, h4⟩ := htr
  have hb0 : ¬ qb.balance = 0 := fun hc => absurd (hc ▸ h1) (lt_irrefl 0)
  unfold check_payment_status _handle_short_payment
  simp [hqid, hb0, h1, h2, h3, h4, lt_irrefl]

/-- Claim C3 as amended: reconciling the same external balance twice in a
row equals reconciling it once, except when the first run flags a
short-payment dispute; in that case the second run equals the first run's
state with only the status reset from disputed to partially paid. Whenever
the first run does not trigger the dispute branch, the second run changes
nothing. -/
theorem c3_reconcile_idempotent_no_dispute :
    (∀ (inv : Invoice) (qb : QBInvoice) (today : PyDate), ¬ triggersDispute inv qb →
      check_payment_status (check_payment_status inv (some qb) today).1 (some qb) today =
        check_payment_status inv (some qb) today) ∧
    (∀ (inv : Invoice) (qb : QBInvoice) (today : PyDate) (qid : String),
      inv.quickbooks_invoice_id = some qid → triggersDispute inv qb →
      (check_payment_status (check_payment_status inv (some qb) today).1 (some qb) today).1 =
        { (check_payment_status inv (some qb) today).1 with
            status := InvoiceStatus.part_paid }) :=
  ⟨check_payment_status_absorbed, check_payment_status_dispute_reset⟩

/-- Claim C3 amended witness: a partially paid invoice consistent with the
report (no dispute triggered) reconciles idempotently, and the disputed
first run on invoiceSent is reset to partially paid by the second run. -/
theorem c3_reconcile_idempotent_no_dispute_witness :
    (¬ triggersDispute invoicePartPaid qbReport ∧
      check_payment_status (check_payment_status invoicePartPaid (some qbReport)
          ⟨2024, 3, 1⟩).1 (some qbReport) ⟨2024, 3, 1⟩ =
        check_payment_status invoicePartPaid (some qbReport) ⟨2024, 3, 1⟩) ∧
    (triggersDispute invoiceSent qbReport ∧
      (check_payment_status (check_payment_status invoiceSent (some qbReport)
          ⟨2024, 3, 1⟩).1 (some qbReport) ⟨2024, 3, 1⟩).1 =
        { (check_payment_status invoiceSent (some qbReport) ⟨2024, 3, 1⟩).1 with
            status := InvoiceStatus.part_paid }) :=
  have hnd : ¬ triggersDispute invoicePartPaid qbReport := by
    norm_num [triggersDispute, invoicePartPaid, qbReport]
  have htr : triggersDispute invoiceSent qbReport := by
    norm_num [triggersDispute, invoiceSent, qbReport]
  ⟨⟨hnd, c3_reconcile_idempotent_no_dispute.1 invoicePartPaid qbReport ⟨2024, 3, 1⟩ hnd⟩,
   ⟨htr, c3_reconcile_idempotent_no_dispute.2 invoiceSent qbReport ⟨2024, 3, 1⟩ "QB1"
      rfl htr⟩⟩

/-- Claim C4 counterexample: a partially paid invoice past its due date
(2024-01-01, evaluated 2024-06-01) whose report shows a partial balance is
set to partially paid, not overdue: the overdue transition is never taken
when the reported balance is below the reported total. -/
theorem c4_overdue_cex :
    pyDateLt ⟨2024, 1, 1⟩ ⟨2024, 6, 1⟩ ∧
    invoicePartPaid.status = InvoiceStatus.part_paid ∧
    invoicePartPaid.due_date = some ⟨2024, 1, 1⟩ ∧
    (check_payment_status invoicePartPaid (some qbReport) ⟨2024, 6, 1⟩).1.status ≠
      InvoiceStatus.overdue := by
  refine ⟨by decide, rfl, rfl, ?_⟩
  have h1 : (check_payment_status invoicePartPaid (some qbReport) ⟨2024, 6, 1⟩).1.status =
      InvoiceStatus.part_paid := by
    norm_num [check_payment_status, _handle_short_payment, invoicePartPaid, qbReport]
  rw [h1]
  simp

/-- Claim C4 as amended: the evaluation sets status to overdue exactly when
the reported balance is nonzero and not below the reported total and the due
date is set and has passed, regardless of the current status; and
re-evaluating such an invoice with the same report is a no-op. -/
theorem c4_overdue_amended :
    ∀ (inv : Invoice) (qb : QBInvoice) (today dd : PyDate) (qid : String),
      inv.quickbooks_invoice_id = some qid → qb.balance ≠ 0 →
      ¬ qb.balance < qb.total_amount → inv.due_date = some dd → pyDateLt dd today →
      (check_payment_status inv (some qb) today).1.status = InvoiceStatus.overdue ∧
      check_payment_status (check_payment_status inv (some qb) today).1 (some qb) today =
        check_payment_status inv (some qb) today := by
  intro inv qb today dd qid hqid hb0 hlt hdd hpast
  constructor
  · unfold check_payment_status
    rw [hqid]
    simp [hb0, hlt, hdd, hpast]
  · exact check_payment_status_absorbed inv qb today
      (fun hc => hlt hc.2.1)

/-- Claim C4 amended witness: a sent invoice past due with a fully unpaid
report becomes overdue, idempotently. -/
theorem c4_overdue_amended_witness :
    pyDateLt ⟨2024, 1, 1⟩ ⟨2024, 6, 1⟩ ∧
    (check_payment_status invoiceSentDue (some qbReportUnpaid) ⟨2024, 6, 1⟩).1.status =
      InvoiceStatus.overdue ∧
    check_payment_status (check_payment_status invoiceSentDue (some qbReportUnpaid)
        ⟨2024, 6, 1⟩).1 (some qbReportUnpaid) ⟨2024, 6, 1⟩ =
      check_payment_status invoiceSentDue (some qbReportUnpaid) ⟨2024, 6, 1⟩ := by
  have h := c4_overdue_amended invoiceSentDue qbReportUnpaid ⟨2024, 6, 1⟩ ⟨2024, 1, 1⟩ "QB3"
    rfl (by norm_num [qbReportUnpaid]) (by norm_num [qbReportUnpaid]) rfl (by decide)
  exact ⟨by decide, h.1, h.2⟩

/-! Helper lemmas for the invoice-number development. -/

theorem digitChar_toNat (d : Nat) (h : d < 10) : (digitChar d).toNat = 48 + d := by
  interval_cases d <;> rfl

theorem digitChar_isDigit (d : Nat) (h : d < 10) : (digitChar d).isDigit = true := by
  interval_cases d <;> decide

theorem digitChar_ne_dash (d : Nat) (h : d < 10) : digitChar d ≠ '-' := by
  interval_cases d <;> decide

theorem digitChar_ne_plus (d : Nat) (h : d < 10) : digitChar d ≠ '+' := by
  interval_cases d <;> decide

theorem digitChar_ne_underscore (d : Nat) (h : d < 10) : digitChar d ≠ '_' := by
  interval_cases d <;> decide

theorem digitChar_not_ws (d : Nat) (h : d < 10) : (digitChar d).isWhitespace = false := by
  interval_cases d <;> decide

/-- Every character produced by natDigitsRev is a decimal digit character. -/
theorem natDigitsRev_mem (n : Nat) : ∀ c ∈ natDigitsRev n, ∃ k, k < 10 ∧ c = digitChar k := by
  induction n using Nat.strong_induction_on with
  | _ n ih =>
    unfold natDigitsRev
    split
    · next h =>
      intro c hc
      simp only [List.mem_singleton] at hc
      exact ⟨n, h, hc⟩
    · next h =>
      intro c hc
      simp only [List.mem_cons] at hc
      rcases hc with hc | hc
      · exact ⟨n % 10, Nat.mod_lt _ (by omega), hc⟩
      · exact ih (n / 10) (Nat.div_lt_self (by omega) (by omega)) c hc

theorem listLtB_irrefl (l : List Char) : listLtB l l = false := by
  induction l with
  | nil => rfl
  | cons a as ih => simp [listLtB, ih]

theorem listLtB_asymm {l1 l2 : List Char} (h : listLtB l1 l2 = true) :
    listLtB l2 l1 = false := by
  induction l1 generalizing l2 with
  | nil =>
    cases l2 with
    | nil => simpa [listLtB] using h
    | cons b bs => rfl
  | cons a as ih =>
    cases l2 with
    | nil => simp [listLtB] at h
    | cons b bs =>
      simp only [listLtB] at h ⊢
      by_cases h1 : a.toNat < b.toNat
      · have h2 : ¬ b.toNat < a.toNat := by omega
        simp [h1, h2]
      · by_cases h2 : b.toNat < a.toNat
        · simp [h1, h2] at h
        · simp only [h1, h2, if_false] at h
          simp [h1, h2, ih h]

theorem listLtB_append_same (p a b : List Char) :
    listLtB (p ++ a) (p ++ b) = listLtB a b := by
  induction p with
  | nil => rfl
  | cons c cs ih => simp [listLtB, ih]

theorem listIsPrefixB_append (p r : List Char) : listIsPrefixB p (p ++ r) = true := by
  induction p with
  | nil => rfl
  | cons c cs ih => simp [listIsPrefixB, ih]

theorem strLtB_irrefl (s : String) : strLtB s s = false := listLtB_irrefl _

theorem strLtB_asymm {s t : String} (h : strLtB s t = true) : strLtB t s = false :=
  listLtB_asymm h

theorem listLtB_cons_lt {a b : Char} (as bs : List Char) (h : a.toNat < b.toNat) :
    listLtB (a :: as) (b :: bs) = true := by
  simp [listLtB, h]

theorem listLtB_cons_self (a : Char) (as bs : List Char) :
    listLtB (a :: as) (a :: bs) = listLtB as bs := by
  simp [listLtB]

/-- Lexicographic order on the five zero-padded digit characters agrees with
the numeric order below 100000. -/
theorem fiveDigits_lt {m n : Nat} (hmn : m < n) (hn : n < 100000) :
    listLtB
      [digitChar (m / 10000), digitChar (m / 1000 % 10), digitChar (m / 100 % 10),
       digitChar (m / 10 % 10), digitChar (m % 10)]
      [digitChar (n / 10000), digitChar (n / 1000 % 10), digitChar (n / 100 % 10),
       digitChar (n / 10 % 10), digitChar (n % 10)] = true := by
  have hm : m < 100000 := by omega
  by_cases h1 : m / 10000 < n / 10000
  · exact listLtB_cons_lt _ _
      (by rw [digitChar_toNat _ (by omega), digitChar_toNat _ (by omega)]; omega)
  · have e1 : m / 10000 = n / 10000 := by omega
    rw [e1, listLtB_cons_self]
    by_cases h2 : m / 1000 % 10 < n / 1000 % 10
    · exact listLtB_cons_lt _ _
        (by rw [digitChar_toNat _ (by omega), digitChar_toNat _ (by omega)]; omega)
    · have e2 : m / 1000 % 10 = n / 1000 % 10 := by omega
      rw [e2, listLtB_cons_self]
      by_cases h3 : m / 100 % 10 < n / 100 % 10
      · exact listLtB_cons_lt _ _
          (by rw [digitChar_toNat _ (by omega), digitChar_toNat _ (by omega)]; omega)
      · have e3 : m / 100 % 10 = n / 100 % 10 := by omega
        rw [e3, listLtB_cons_self]
        by_cases h4 : m / 10 % 10 < n / 10 % 10
        · exact listLtB_cons_lt _ _
            (by rw [digitChar_toNat _ (by omega), digitChar_toNat _ (by omega)]; omega)
        · have e4 : m / 10 % 10 = n / 10 % 10 := by omega
          rw [e4, listLtB_cons_self]
          have h5 : m % 10 < n % 10 := by omega
          exact listLtB_cons_lt _ _
            (by rw [digitChar_toNat _ (by omega), digitChar_toNat _ (by omega)]; omega)

theorem lexMax_eq_none {l : List String} (h : lexMax l = none) : l = [] := by
  cases l with
  | nil => rfl
  | cons s t =>
    unfold lexMax at h
    cases hm : lexMax t with
    | none => rw [hm] at h; simp at h
    | some x => rw [hm] at h; by_cases hs : strLtB s x = true <;> simp [hs] at h

theorem lexMax_mem : ∀ (l : List String) (m : String), lexMax l = some m → m ∈ l := by
  intro l
  induction l with
  | nil => intro m h; simp [lexMax] at h
  | cons s t ih =>
    intro m h
    unfold lexMax at h
    cases hm : lexMax t with
    | none => rw [hm] at h; simp at h; simp [h]
    | some x =>
      rw [hm] at h
      by_cases hlt : strLtB s x = true
      · simp [hlt] at h
        exact List.mem_cons_of_mem _ (h ▸ ih x hm)
      · simp [hlt] at h
        simp [h]

/-- The string maximum of a list whose members are all equal to or below x,
with x a member, is x. -/
theorem lexMax_of_max : ∀ (l : List String) (x : String), x ∈ l →
    (∀ s ∈ l, s = x ∨ strLtB s x = true) → lexMax l = some x := by
  intro l
  induction l with
  | nil => intro x hx; simp at hx
  | cons s t ih =>
    intro x hx hall
    unfold lexMax
    cases hm : lexMax t with
    | none =>
      have ht : t = [] := lexMax_eq_none hm
      subst ht
      simp at hx
      simp [hx]
    | some m =>
      have hmem : m ∈ t := lexMax_mem t m hm
      have hmx : m = x ∨ strLtB m x = true := hall m (List.mem_cons_of_mem _ hmem)
      rcases List.mem_cons.mp hx with hxs | hxt
      · subst hxs
        rcases hmx with hmx | hmx
        · subst hmx
          simp [strLtB_irrefl]
        · simp [strLtB_asymm hmx]
      · have := ih x hxt (fun s hs => hall s (List.mem_cons_of_mem _ hs))
        rw [hm] at this
        have hmeq : m = x := by simpa using this
        subst hmeq
        rcases hall s (List.mem_cons_self _ _) with hsx | hsx
        · subst hsx
          simp [strLtB_irrefl]
        · simp [hsx]

theorem splitDash_no_dash (l : List Char) (h : ∀ c ∈ l, c ≠ '-') : splitDash l = [l] := by
  induction l with
  | nil => rfl
  | cons c cs ih =>
    have hc : c ≠ '-' := h c (List.mem_cons_self _ _)
    have ihh := ih (fun d hd => h d (List.mem_cons_of_mem _ hd))
    simp [splitDash, hc, ihh]

theorem splitDash_append (l r : List Char) (h : ∀ c ∈ l, c ≠ '-') :
    splitDash (l ++ '-' :: r) = l :: splitDash r := by
  induction l with
  | nil => simp [splitDash]
  | cons c cs ih =>
    have hc : c ≠ '-' := h c (List.mem_cons_self _ _)
    have ihh := ih (fun d hd => h d (List.mem_cons_of_mem _ hd))
    simp [splitDash, hc, ihh]

theorem dropWhile_not_ws {l : List Char} (h : ∀ c ∈ l, c.isWhitespace = false) :
    l.dropWhile Char.isWhitespace = l := by
  cases l with
  | nil => rfl
  | cons c cs => simp [List.dropWhile_cons, h c (List.mem_cons_self _ _)]

theorem pyStrip_eq {l : List Char} (h : ∀ c ∈ l, c.isWhitespace = false) :
    pyStrip (String.mk l) = l := by
  unfold pyStrip
  have h1 : (String.mk l).toList = l := rfl
  rw [h1, dropWhile_not_ws h, dropWhile_not_ws (fun c hc => h c (List.mem_reverse.mp hc)),
    List.reverse_reverse]

theorem pyIntGo_digits (acc : Nat) (ds : List Nat) (h : ∀ d ∈ ds, d < 10) :
    pyIntGo acc (ds.map digitChar) = some (ds.foldl (fun a d => a * 10 + d) acc) := by
  induction ds generalizing acc with
  | nil => rfl
  | cons d rest ih =>
    have hd : d < 10 := h d (List.mem_cons_self _ _)
    simp only [List.map_cons, List.foldl_cons]
    rw [pyIntGo.eq_def]
    dsimp only
    rw [if_neg (digitChar_ne_underscore d hd), if_pos (digitChar_isDigit d hd),
      digitChar_toNat d hd]
    have e : 48 + d - 48 = d := by omega
    rw [e]
    exact ih (acc * 10 + d) (fun x hx => h x (List.mem_cons_of_mem _ hx))

theorem pyIntDigits_five (a b c d e : Nat) (ha : a < 10) (hb : b < 10) (hc : c < 10)
    (hd : d < 10) (he : e < 10) :
    pyIntDigits [digitChar a, digitChar b, digitChar c, digitChar d, digitChar e] =
      some ((((a * 10 + b) * 10 + c) * 10 + d) * 10 + e) := by
  have hgo := pyIntGo_digits a [b, c, d, e]
    (by intro x hx; simp at hx; rcases hx with h|h|h|h <;> omega)
  simp only [List.map_cons, List.map_nil, List.foldl_cons, List.foldl_nil] at hgo
  simp only [pyIntDigits]
  rw [if_pos (digitChar_isDigit a ha), digitChar_toNat a ha]
  have e1 : 48 + a - 48 = a := by omega
  rw [e1]
  exact hgo

theorem pyFmt05_toList (k : Nat) (hk : k < 100000) :
    (pyFmt05 (k : Int)).toList =
      [digitChar (k / 10000), digitChar (k / 1000 % 10), digitChar (k / 100 % 10),
       digitChar (k / 10 % 10), digitChar (k % 10)] := by
  unfold pyFmt05
  rw [if_pos (by omega : (0 : Int) ≤ (k : Int))]
  have ht : ((k : Int)).toNat = k := by omega
  simp only [ht]
  rw [if_pos hk]
  rfl

theorem pyFmt05_nat_digits (k : Nat) :
    ∀ c ∈ (pyFmt05 (k : Int)).toList, ∃ x, x < 10 ∧ c = digitChar x := by
  by_cases hk : k < 100000
  · rw [pyFmt05_toList k hk]
    intro c hc
    simp only [List.mem_cons, List.not_mem_nil, or_false] at hc
    rcases hc with h | h | h | h | h <;> exact ⟨_, by omega, h⟩
  · unfold pyFmt05
    rw [if_pos (by omega : (0 : Int) ≤ (k : Int))]
    have ht : ((k : Int)).toNat = k := by omega
    simp only [ht]
    rw [if_neg hk]
    intro c hc
    have hc2 : c ∈ natDigitsRev k := List.mem_reverse.mp hc
    exact natDigitsRev_mem k c hc2

theorem fmtYYYYMM_digits (d : PyDate) :
    ∀ c ∈ (fmtYYYYMM d).toList, ∃ x, x < 10 ∧ c = digitChar x := by
  intro c hc
  unfold fmtYYYYMM at hc
  have happ : ∀ (a b : String), (a ++ b).toList = a.toList ++ b.toList := fun a b => rfl
  rw [happ] at hc
  rcases List.mem_append.mp hc with h | h
  · split at h
    · replace h : c ∈ [digitChar (d.year.toNat / 1000), digitChar (d.year.toNat / 100 % 10),
          digitChar (d.year.toNat / 10 % 10), digitChar (d.year.toNat % 10)] := h
      simp only [List.mem_cons, List.not_mem_nil, or_false] at h
      rcases h with h | h | h | h <;> exact ⟨_, by omega, h⟩
    · exact natDigitsRev_mem _ c (List.mem_reverse.mp h)
  · split at h
    · replace h : c ∈ [digitChar (d.month.toNat / 10), digitChar (d.month.toNat % 10)] := h
      simp only [List.mem_cons, List.not_mem_nil, or_false] at h
      rcases h with h | h <;> exact ⟨_, by omega, h⟩
    · exact natDigitsRev_mem _ c (List.mem_reverse.mp h)

theorem lastSeg_fmtInv (d : PyDate) (n : Nat) :
    lastSeg (fmtInv d n) = pyFmt05 (n : Int) := by
  unfold lastSeg fmtInv
  have e1 : ((("INV-" ++ fmtYYYYMM d) ++ "-") ++ pyFmt05 (n : Int)).toList
      = ['I', 'N', 'V'] ++ '-' ::
          ((fmtYYYYMM d).toList ++ '-' :: (pyFmt05 (n : Int)).toList) := by
    show (("INV-".toList ++ (fmtYYYYMM d).toList) ++ "-".toList) ++ (pyFmt05 (n : Int)).toList
        = _
    have hi : "INV-".toList = ['I', 'N', 'V', '-'] := rfl
    have hd2 : "-".toList = ['-'] := rfl
    rw [hi, hd2]
    simp [List.append_assoc]
  rw [e1]
  rw [splitDash_append _ _ (by intro c hc; fin_cases hc <;> decide)]
  rw [splitDash_append _ _ (by
    intro c hc
    obtain ⟨x, hx, rfl⟩ := fmtYYYYMM_digits d c hc
    exact digitChar_ne_dash x hx)]
  rw [splitDash_no_dash _ (by
    intro c hc
    obtain ⟨x, hx, rfl⟩ := pyFmt05_nat_digits n c hc
    exact digitChar_ne_dash x hx)]
  rfl

theorem pyInt_pyFmt05 (k : Nat) (hk : k < 100000) :
    pyInt (pyFmt05 (k : Int)) = some (k : Int) := by
  have htl := pyFmt05_toList k hk
  have hmk : pyFmt05 (k : Int) =
      String.mk [digitChar (k / 10000), digitChar (k / 1000 % 10), digitChar (k / 100 % 10),
        digitChar (k / 10 % 10), digitChar (k % 10)] := by
    rw [← htl]
    rfl
  unfold pyInt
  rw [hmk, pyStrip_eq (by
    intro c hc
    simp only [List.mem_cons, List.not_mem_nil, or_false] at hc
    rcases hc with h | h | h | h | h <;>
      (subst h; exact digitChar_not_ws _ (by omega)))]
  dsimp only
  rw [if_neg (digitChar_ne_plus _ (by omega)), if_neg (digitChar_ne_dash _ (by omega))]
  rw [pyIntDigits_five _ _ _ _ _ (by omega) (by omega) (by omega) (by omega) (by omega)]
  have e : (((k / 10000 * 10 + k / 1000 % 10) * 10 + k / 100 % 10) * 10 + k / 10 % 10) * 10 +
      k % 10 = k := by omega
  rw [e]
  rfl

theorem fmtInv_has_prefix (d : PyDate) (n : Nat) :
    pyLikePrefix ("INV-" ++ fmtYYYYMM d ++ "-") (fmtInv d n) = true := by
  unfold pyLikePrefix fmtInv
  have e : (("INV-" ++ fmtYYYYMM d ++ "-") ++ pyFmt05 (n : Int)).toList =
      ("INV-" ++ fmtYYYYMM d ++ "-").toList ++ (pyFmt05 (n : Int)).toList := rfl
  rw [e]
  exact listIsPrefixB_append _ _

theorem fmtInv_lt (d : PyDate) {m n : Nat} (hmn : m < n) (hn : n < 100000) :
    strLtB (fmtInv d m) (fmtInv d n) = true := by
  unfold strLtB fmtInv
  have e : ∀ (x : String), (("INV-" ++ fmtYYYYMM d ++ "-") ++ x).toList =
      ("INV-" ++ fmtYYYYMM d ++ "-").toList ++ x.toList := fun x => rfl
  rw [e, e, listLtB_append_same, pyFmt05_toList m (by omega), pyFmt05_toList n hn]
  exact fiveDigits_lt hmn hn

/-- A parse failure of the lexicographically greatest matching number makes
the generator restart the sequence at 1. -/
theorem generate_number_restart (existing : List String) (d : PyDate) (last : String)
    (h1 : lexMax (existing.filter
      (fun s => pyLikePrefix ("INV-" ++ fmtYYYYMM d ++ "-") s)) = some last)
    (h2 : pyInt (lastSeg last) = none) :
    _generate_invoice_number existing d = "INV-" ++ fmtYYYYMM d ++ "-" ++ pyFmt05 1 := by
  unfold _generate_invoice_number
  dsimp only
  rw [h1]
  dsimp only
  rw [h2]

/-- From a clean generator state holding the sequences 1..k of the month,
the next generated number has sequence k + 1. -/
theorem generate_number_step (d : PyDate) (k : Nat) (hk : k < 99999) :
    _generate_invoice_number (fmtList d k) d = fmtInv d (k + 1) := by
  unfold _generate_invoice_number
  dsimp only
  have hfilter : (fmtList d k).filter
      (fun s => pyLikePrefix ("INV-" ++ fmtYYYYMM d ++ "-") s) = fmtList d k := by
    rw [List.filter_eq_self]
    intro s hs
    obtain ⟨i, hi, rfl⟩ : ∃ i, i < k ∧ fmtInv d (i + 1) = s := by
      unfold fmtList at hs
      obtain ⟨i, hi, he⟩ := List.mem_map.mp hs
      exact ⟨i, List.mem_range.mp hi, he⟩
    exact fmtInv_has_prefix d (i + 1)
  rw [hfilter]
  cases k with
  | zero =>
    show (match lexMax (fmtList d 0) with
      | none => "INV-" ++ fmtYYYYMM d ++ "-" ++ pyFmt05 1
      | some last =>
        match pyInt (lastSeg last) with
        | some n => "INV-" ++ fmtYYYYMM d ++ "-" ++ pyFmt05 (n + 1)
        | none => "INV-" ++ fmtYYYYMM d ++ "-" ++ pyFmt05 1) = fmtInv d 1
    have h0 : lexMax (fmtList d 0) = none := rfl
    rw [h0]
    unfold fmtInv
    norm_num
  | succ j =>
    have hmax : lexMax (fmtList d (j + 1)) = some (fmtInv d (j + 1)) := by
      apply lexMax_of_max
      · unfold fmtList
        exact List.mem_map.mpr ⟨j, List.mem_range.mpr (by omega), rfl⟩
      · intro s hs
        obtain ⟨i, hi, rfl⟩ : ∃ i, i < j + 1 ∧ fmtInv d (i + 1) = s := by
          unfold fmtList at hs
          obtain ⟨i, hi, he⟩ := List.mem_map.mp hs
          exact ⟨i, List.mem_range.mp hi, he⟩
        by_cases hij : i = j
        · subst hij; left; rfl
        · right
          exact fmtInv_lt d (by omega) (by omega)
    rw [hmax]
    dsimp only
    rw [lastSeg_fmtInv, pyInt_pyFmt05 (j + 1) (by omega)]
    dsimp only
    unfold fmtInv
    have e : ((j + 1 : Nat) : Int) + 1 = ((j + 1 + 1 : Nat) : Int) := by push_cast; ring
    rw [e]

/-- Claim C5 counterexample: with existing numbers INV-202401-2 and
INV-202401-10 for the month, the numerically highest existing sequence is
10, so the claim demands sequence 11; the generator instead takes the
lexicographically greatest string INV-202401-2, parses 2, and produces
INV-202401-00003. -/
theorem c5_invoice_number_cex :
    maxSeqClaim ["INV-202401-2", "INV-202401-10"] "INV-202401" = some 10 ∧
    _generate_invoice_number ["INV-202401-2", "INV-202401-10"] ⟨2024, 1, 15⟩ =
      "INV-202401-00003" ∧
    "INV-202401-00003" ≠ "INV-202401-" ++ pyFmt05 (10 + 1) := by
  refine ⟨by decide, by decide, by decide⟩

/-- Claim C5 as amended: the generated number is INV-YYYYMM- followed by the
zero-padded sequence, where the sequence is one plus the sequence parsed
from the lexicographically greatest (not numerically highest) existing
number for the month, and restarts at 1 when that number does not parse;
from a clean generator state holding exactly the sequences 1..k of the
month with k below 99999, the next call produces sequence k + 1, so
sequential non-concurrent calls from such states yield strictly increasing,
gap-free sequences while they stay within the five-digit padding. -/
theorem c5_invoice_number_amended :
    (∀ (existing : List String) (d : PyDate) (last : String),
      lexMax (existing.filter
        (fun s => pyLikePrefix ("INV-" ++ fmtYYYYMM d ++ "-") s)) = some last →
      pyInt (lastSeg last) = none →
      _generate_invoice_number existing d = "INV-" ++ fmtYYYYMM d ++ "-" ++ pyFmt05 1) ∧
    (∀ (d : PyDate) (k : Nat), k < 99999 →
      _generate_invoice_number (fmtList d k) d = fmtInv d (k + 1)) :=
  ⟨generate_number_restart, generate_number_step⟩

/-- Claim C5 amended witness: from the clean state 1..2 of January 2024 the
next number has sequence 3, and a garbage greatest number restarts at 1. -/
theorem c5_invoice_number_amended_witness :
    _generate_invoice_number (fmtList ⟨2024, 1, 15⟩ 2) ⟨2024, 1, 15⟩ =
      fmtInv ⟨2024, 1, 15⟩ 3 ∧
    _generate_invoice_number ["INV-202401-garbage"] ⟨2024, 1, 15⟩ =
      "INV-" ++ fmtYYYYMM ⟨2024, 1, 15⟩ ++ "-" ++ pyFmt05 1 :=
  ⟨c5_invoice_number_amended.2 ⟨2024, 1, 15⟩ 2 (by decide),
   c5_invoice_number_amended.1 ["INV-202401-garbage"] ⟨2024, 1, 15⟩
     "INV-202401-garbage" (by decide) (by decide)⟩
